import Mathlib

/-!
Verification of the calendarsnack event-management engine.

The definitions below are a shallow embedding of the Python sources under
`src/calendarsnack-event-management/src/functions/`.  The DynamoDB table is
modelled as a `Store` of association lists (one per entity kind); DynamoDB
document-path updates that fail when the path is absent are modelled with
`Option`, while `if_not_exists(path, :zero) + :inc` updates are modelled by
`incInit`.  Each Lambda module is embedded in its own namespace, keeping the
source's function names.
-/

set_option autoImplicit false

/-- Association-list lookup: first pair whose key matches, as in a
DynamoDB single-table keyed read. -/
def assocGet {κ α : Type} [DecidableEq κ] : List (κ × α) → κ → Option α
  | [], _ => none
  | (k, v) :: rest, key => if k = key then some v else assocGet rest key

/-- Association-list write: replace the first pair with the given key, or
append the pair if the key is absent (a DynamoDB put / upsert). -/
def assocSet {κ α : Type} [DecidableEq κ] : List (κ × α) → κ → α → List (κ × α)
  | [], key, val => [(key, val)]
  | (k, v) :: rest, key, val =>
      if k = key then (key, val) :: rest else (k, v) :: assocSet rest key val

/-- Number of entries stored under a key. -/
def countKey {κ α : Type} [DecidableEq κ] (m : List (κ × α)) (key : κ) : Nat :=
  (m.filter (fun p => p.1 = key)).length

/-- Sum of all values of an integer-valued map (Python `sum(m.values())`). -/
def sumValues {κ : Type} : List (κ × Int) → Int
  | [] => 0
  | (_, v) :: rest => v + sumValues rest

/-- DynamoDB `SET path = if_not_exists(path, :zero) + :inc`: increment a
sub-counter, initializing an absent sub-counter to zero first. -/
def incInit {κ : Type} [DecidableEq κ] (m : List (κ × Int)) (key : κ) : List (κ × Int) :=
  assocSet m key ((assocGet m key).getD 0 + 1)

/-- DynamoDB `SET path = path + :delta` without `if_not_exists`: the update
fails (the whole request is rejected) when the document path is absent. -/
def addExisting {κ : Type} [DecidableEq κ] (m : List (κ × Int)) (key : κ) (d : Int) :
    Option (List (κ × Int)) :=
  (assocGet m key).map (fun v => assocSet m key (v + d))

theorem assocGet_assocSet_same {κ α : Type} [DecidableEq κ]
    (m : List (κ × α)) (key : κ) (val : α) :
    assocGet (assocSet m key val) key = some val := by
  induction m with
  | nil => simp [assocGet, assocSet]
  | cons p rest ih =>
      obtain ⟨k, v⟩ := p
      by_cases h : k = key
      · simp [assocGet, assocSet, h]
      · simp [assocGet, assocSet, h, ih]

theorem assocGet_assocSet_other {κ α : Type} [DecidableEq κ]
    (m : List (κ × α)) (key key' : κ) (val : α) (hne : key' ≠ key) :
    assocGet (assocSet m key val) key' = assocGet m key' := by
  induction m with
  | nil => simp [assocGet, assocSet, Ne.symm hne]
  | cons p rest ih =>
      obtain ⟨k, v⟩ := p
      by_cases h : k = key
      · subst h
        simp [assocGet, assocSet, Ne.symm hne]
      · simp [assocGet, assocSet, h, ih]

theorem sumValues_assocSet {κ : Type} [DecidableEq κ]
    (m : List (κ × Int)) (key : κ) (v d : Int)
    (hv : assocGet m key = some v) :
    sumValues (assocSet m key (v + d)) = sumValues m + d := by
  induction m with
  | nil => simp [assocGet] at hv
  | cons p rest ih =>
      obtain ⟨k, w⟩ := p
      by_cases h : k = key
      · simp [assocGet, h] at hv
        subst hv
        simp [assocSet, h, sumValues]
        ring
      · simp [assocGet, h] at hv
        simp [assocSet, h, sumValues, ih hv]
        ring

theorem sumValues_assocSet_absent {κ : Type} [DecidableEq κ]
    (m : List (κ × Int)) (key : κ) (v : Int)
    (hv : assocGet m key = none) :
    sumValues (assocSet m key v) = sumValues m + v := by
  induction m with
  | nil => simp [assocSet, sumValues]
  | cons p rest ih =>
      obtain ⟨k, w⟩ := p
      by_cases h : k = key
      · simp [assocGet, h] at hv
      · simp [assocGet, h] at hv
        simp [assocSet, h, sumValues, ih hv]
        ring

theorem sumValues_incInit {κ : Type} [DecidableEq κ]
    (m : List (κ × Int)) (key : κ) :
    sumValues (incInit m key) = sumValues m + 1 := by
  unfold incInit
  cases hv : assocGet m key with
  | none => simpa [hv] using sumValues_assocSet_absent m key 1 hv
  | some v => simpa [hv] using sumValues_assocSet m key v 1 hv

theorem sumValues_addExisting {κ : Type} [DecidableEq κ]
    (m m' : List (κ × Int)) (key : κ) (d : Int)
    (h : addExisting m key d = some m') :
    sumValues m' = sumValues m + d := by
  unfold addExisting at h
  cases hv : assocGet m key with
  | none => simp [hv] at h
  | some v =>
      simp [hv] at h
      subst h
      exact sumValues_assocSet m key v d hv

theorem assocGet_addExisting_same {κ : Type} [DecidableEq κ]
    (m m' : List (κ × Int)) (key : κ) (d : Int)
    (h : addExisting m key d = some m') :
    assocGet m' key = (assocGet m key).map (fun v => v + d) := by
  unfold addExisting at h
  cases hv : assocGet m key with
  | none => simp [hv] at h
  | some v =>
      simp [hv] at h
      subst h
      simp [assocGet_assocSet_same]

theorem assocGet_addExisting_other {κ : Type} [DecidableEq κ]
    (m m' : List (κ × Int)) (key key' : κ) (d : Int) (hne : key' ≠ key)
    (h : addExisting m key d = some m') :
    assocGet m' key' = assocGet m key' := by
  unfold addExisting at h
  cases hv : assocGet m key with
  | none => simp [hv] at h
  | some v =>
      simp [hv] at h
      subst h
      exact assocGet_assocSet_other m key key' (v + d) hne

/-- A denormalized statistics counter record (one of the three scopes):
attributes `attendees`, `origin`, `prodid`, `rsvp` of the DynamoDB items
written by `create_new_event_record` and updated by `send_event_invite`
and `update_event_attendee_record`. -/
structure StatisticsRecord where
  attendees : Int
  origin : List (String × Int)
  prodid : List (String × Int)
  rsvp : List (String × Int)
  deriving Repr, DecidableEq

/-- The statistics portion of `get_statistics_record_for` and of
`create_organizer_statistics_record`: all counters zero, the `rsvp` map
seeded with the four statuses. -/
def seedStatisticsZero : StatisticsRecord :=
  { attendees := 0
    origin := []
    prodid := []
    rsvp := [("accepted", 0), ("declined", 0), ("noaction", 0), ("tentative", 0)] }

/-- An Event item (`pk = sk = event#<uid>`), as staged by
`create_new_event_record.stage_request_from` (date strings already converted
to epoch integers) and mutated by `update_event` and `cancel_event_2`. -/
structure EventRecord where
  uid : String
  organizer : String
  original_organizer : String
  mailto : String
  status : String
  method : String
  sequence : Int
  dtstart : Int
  dtend : Int
  dtstamp : Int
  created : Int
  last_modified : Int
  summary : String
  summary_html : String
  description : String
  description_html : String
  location : String
  location_html : String
  invite_limit : Int
  invite_limit_notification : Bool
  tenant : String
  deriving Repr, DecidableEq

/-- An attendee item (`pk = event#<uid>`, `sk = attendee#<email>`); the
history entries are `(status, timestamp, prodid)` triples. -/
structure AttendeeRecord where
  attendee : String
  mailto : String
  created : Int
  name : String
  status : String
  origin : String
  prodid : String
  history : List (String × Int × String)
  deriving Repr, DecidableEq

/-- The `original_event#<original_uid>` lookup item produced by
`get_original_event_record_from`. -/
structure OriginalEventLookup where
  uid : String
  mailto : String
  deriving Repr, DecidableEq

/-- The organizer statistics item (`organizer_statistics#<mailto>`): the
`events` counter plus the shared statistics attributes.  `stats = none`
models an item that exists without the statistics attributes (as a bare
`events` upsert would create). -/
structure OrganizerRecord where
  events : Int
  stats : Option StatisticsRecord
  deriving Repr, DecidableEq

/-- The DynamoDB single table, split by entity kind.  Every map is an
association list keyed as in section 6 of the spec; the system statistics
item is the pre-existing singleton. -/
structure Store where
  originalEvents : List (String × OriginalEventLookup)
  events : List (String × EventRecord)
  attendeeRecords : List ((String × String) × AttendeeRecord)
  eventStatistics : List (String × StatisticsRecord)
  organizerStatistics : List (String × OrganizerRecord)
  systemStatistics : StatisticsRecord
  deriving Repr, DecidableEq

namespace SendEventInvite

/-- The prodid constant hard-coded into the attendee item written by
`get_attendee_record_for`. -/
def prodid31events : String := "-//31events//calendarsnack//en"

/-- The `request` part of a verified invite message (fields `uid`, `email`,
`partstat`, `origin`, `prodid`, optional `name`). -/
structure InviteRequest where
  uid : String
  email : String
  partstat : String
  origin : String
  prodid : String
  name : Option String
  deriving Repr, DecidableEq

/-- `attendee_has_not_been_sent`: no attendee item exists for
`(event#uid, attendee#email)`. -/
def attendee_has_not_been_sent (st : Store) (inv : InviteRequest) : Bool :=
  (assocGet st.attendeeRecords (inv.uid, inv.email)).isNone

/-- `get_attendee_record_for`: the attendee item put by the invite
transaction (status and history from `partstat`, prodid hard-coded). -/
def get_attendee_record_for (inv : InviteRequest) (organizer : String) (now : Int) :
    AttendeeRecord :=
  { attendee := inv.email
    mailto := organizer
    created := now
    name := inv.name.getD "customer"
    status := inv.partstat
    origin := inv.origin
    prodid := prodid31events
    history := [(inv.partstat, now, prodid31events)] }

/-- `get_statistics_record_update_for` (send_event_invite): one scope's
update expression — `attendees + 1`, `origin[origin]` and `prodid[prodid]`
incremented with `if_not_exists`, `rsvp[partstat] + 1` without it (the
update fails when the `rsvp` bucket is absent). -/
def get_statistics_record_update_for (inv : InviteRequest) (s : StatisticsRecord) :
    Option StatisticsRecord :=
  (addExisting s.rsvp inv.partstat 1).map (fun newRsvp =>
    { attendees := s.attendees + 1
      origin := incInit s.origin inv.origin
      prodid := incInit s.prodid inv.prodid
      rsvp := newRsvp })

/-- `create_record_of_attendee`: the five-item transaction — conditional put
of the attendee item, `invite_limit - 1` on the event item, and the
statistics update on the event, organizer and system scopes.  `none` models
a cancelled transaction (raised as an exception in the source). -/
def create_record_of_attendee (st : Store) (inv : InviteRequest)
    (eventMailto : String) (now : Int) : Option Store :=
  if (assocGet st.attendeeRecords (inv.uid, inv.email)).isSome then none else
  (assocGet st.events inv.uid).bind fun ev =>
  (assocGet st.eventStatistics inv.uid).bind fun es =>
  (get_statistics_record_update_for inv es).bind fun es2 =>
  (assocGet st.organizerStatistics eventMailto).bind fun og =>
  og.stats.bind fun ogStats =>
  (get_statistics_record_update_for inv ogStats).bind fun ogStats2 =>
  (get_statistics_record_update_for inv st.systemStatistics).map fun sys2 =>
  { st with
    attendeeRecords :=
      assocSet st.attendeeRecords (inv.uid, inv.email)
        (get_attendee_record_for inv eventMailto now)
    events := assocSet st.events inv.uid { ev with invite_limit := ev.invite_limit - 1 }
    eventStatistics := assocSet st.eventStatistics inv.uid es2
    organizerStatistics :=
      assocSet st.organizerStatistics eventMailto { og with stats := some ogStats2 }
    systemStatistics := sys2 }

/-- Result of processing one invite message. -/
inductive InviteOutcome where
  | recorded
  | testResent
  | alreadySent
  deriving Repr, DecidableEq

/-- `process_request_from` (send_event_invite): create the record and send
when no record exists; resend without a record for `test` origin; otherwise
do nothing.  The boolean is "an invite email was sent". -/
def process_request_from (st : Store) (inv : InviteRequest)
    (eventMailto : String) (now : Int) : Option (Store × InviteOutcome × Bool) :=
  if attendee_has_not_been_sent st inv then
    (create_record_of_attendee st inv eventMailto now).map
      (fun st2 => (st2, InviteOutcome.recorded, true))
  else if inv.origin = "test" then some (st, InviteOutcome.testResent, true)
  else some (st, InviteOutcome.alreadySent, false)

end SendEventInvite

namespace UpdateEventAttendeeRecord

/-- An inbound RSVP reply message (fields `uid`, `attendee`, `partstat`,
`prodid`, optional `name`). -/
structure EventReply where
  uid : String
  attendee : String
  partstat : String
  prodid : String
  name : Option String
  deriving Repr, DecidableEq

/-- `get_current_attendee_record_for`: keyed read of the attendee item. -/
def get_current_attendee_record_for (st : Store) (reply : EventReply) :
    Option AttendeeRecord :=
  assocGet st.attendeeRecords (reply.uid, reply.attendee)

/-- `get_organizer_for`: the `mailto` attribute of the event item (fails if
the event item is absent). -/
def get_organizer_for (st : Store) (uid : String) : Option String :=
  (assocGet st.events uid).map (fun ev => ev.mailto)

/-- `get_attendee_update_record_for`: overwrite `created`, `prodid` and
`status` with the reply's values and append `(partstat, now, prodid)` to
`history`. -/
def get_attendee_update_record_for (rec : AttendeeRecord) (reply : EventReply)
    (now : Int) : AttendeeRecord :=
  { rec with
    created := now
    prodid := reply.prodid
    status := reply.partstat
    history := rec.history ++ [(reply.partstat, now, reply.prodid)] }

/-- `get_statistics_record_update_for` with `shared=False`: one scope's
combined delta `rsvp[partstat] + 1, rsvp[previous_status] - 1` (both buckets
must already exist). -/
def get_statistics_record_update_for (partstat previous_status : String)
    (s : StatisticsRecord) : Option StatisticsRecord :=
  (addExisting s.rsvp partstat 1).bind fun r1 =>
  (addExisting r1 previous_status (-1)).map fun r2 =>
  { s with rsvp := r2 }

/-- `get_statistics_record_update_for` with `shared=True`: one scope's delta
for a shared-origin reply — `rsvp[partstat] + 1`, `attendees + 1`,
`origin["shared"]` and `prodid[prodid]` incremented with `if_not_exists`. -/
def get_statistics_record_update_shared_for (reply : EventReply)
    (s : StatisticsRecord) : Option StatisticsRecord :=
  (addExisting s.rsvp reply.partstat 1).map fun r1 =>
  { attendees := s.attendees + 1
    origin := incInit s.origin "shared"
    prodid := incInit s.prodid reply.prodid
    rsvp := r1 }

/-- `get_shared_attendee_record_for`: the attendee item put for a reply with
no prior invite record (`origin = "shared"`, prodid from the reply). -/
def get_shared_attendee_record_for (reply : EventReply) (organizer : String)
    (now : Int) : AttendeeRecord :=
  { attendee := reply.attendee
    mailto := organizer
    created := now
    name := reply.name.getD "customer"
    status := reply.partstat
    origin := "shared"
    prodid := reply.prodid
    history := [(reply.partstat, now, reply.prodid)] }

/-- `submit_updated_event_attend_record_for`: the four-item transaction for
a status-changing reply — update the attendee item (condition: it exists)
and apply the combined rsvp delta to the three statistics scopes. -/
def submit_updated_event_attend_record_for (st : Store) (reply : EventReply)
    (previous_status : String) (now : Int) : Option Store :=
  (get_organizer_for st reply.uid).bind fun organizer =>
  (assocGet st.attendeeRecords (reply.uid, reply.attendee)).bind fun rec =>
  (assocGet st.eventStatistics reply.uid).bind fun es =>
  (get_statistics_record_update_for reply.partstat previous_status es).bind fun es2 =>
  (assocGet st.organizerStatistics organizer).bind fun og =>
  og.stats.bind fun ogStats =>
  (get_statistics_record_update_for reply.partstat previous_status ogStats).bind
    fun ogStats2 =>
  (get_statistics_record_update_for reply.partstat previous_status
      st.systemStatistics).map fun sys2 =>
  { st with
    attendeeRecords :=
      assocSet st.attendeeRecords (reply.uid, reply.attendee)
        (get_attendee_update_record_for rec reply now)
    eventStatistics := assocSet st.eventStatistics reply.uid es2
    organizerStatistics :=
      assocSet st.organizerStatistics organizer { og with stats := some ogStats2 }
    systemStatistics := sys2 }

/-- `submit_shared_event_attend_record_for`: the four-item transaction for a
reply with no prior record — put the shared-origin attendee item (condition:
absent) and apply the shared delta to the three statistics scopes. -/
def submit_shared_event_attend_record_for (st : Store) (reply : EventReply)
    (now : Int) : Option Store :=
  (get_organizer_for st reply.uid).bind fun organizer =>
  if (assocGet st.attendeeRecords (reply.uid, reply.attendee)).isSome then none else
  (assocGet st.eventStatistics reply.uid).bind fun es =>
  (get_statistics_record_update_shared_for reply es).bind fun es2 =>
  (assocGet st.organizerStatistics organizer).bind fun og =>
  og.stats.bind fun ogStats =>
  (get_statistics_record_update_shared_for reply ogStats).bind fun ogStats2 =>
  (get_statistics_record_update_shared_for reply st.systemStatistics).map fun sys2 =>
  { st with
    attendeeRecords :=
      assocSet st.attendeeRecords (reply.uid, reply.attendee)
        (get_shared_attendee_record_for reply organizer now)
    eventStatistics := assocSet st.eventStatistics reply.uid es2
    organizerStatistics :=
      assocSet st.organizerStatistics organizer { og with stats := some ogStats2 }
    systemStatistics := sys2 }

/-- Result of processing one RSVP reply. -/
inductive RsvpOutcome where
  | updated
  | duplicate
  | sharedCreated
  deriving Repr, DecidableEq

/-- `update_event_attendee_record_with`: read the attendee record, then
dispatch on the three cases — status changed, identical status (duplicate
RSVP, no write), or record absent (shared-origin creation). -/
def update_event_attendee_record_with (st : Store) (reply : EventReply)
    (now : Int) : Option (Store × RsvpOutcome) :=
  match get_current_attendee_record_for st reply with
  | some rec =>
      if rec.status ≠ reply.partstat then
        (submit_updated_event_attend_record_for st reply rec.status now).map
          (fun st2 => (st2, RsvpOutcome.updated))
      else some (st, RsvpOutcome.duplicate)
  | none =>
      (submit_shared_event_attend_record_for st reply now).map
        (fun st2 => (st2, RsvpOutcome.sharedCreated))

end UpdateEventAttendeeRecord

namespace UpdateEvent

/-- The incoming update request's compared fields (`update_fields` tuple in
order: summary, summary_html, location, location_html, dtend, dtstart,
description, description_html). -/
structure UpdateRequest where
  summary : String
  summary_html : String
  location : String
  location_html : String
  dtend : Int
  dtstart : Int
  description : String
  description_html : String
  deriving Repr, DecidableEq

/-- `event_updated`: true when at least one of the eight compared fields
differs between the stored event and the incoming request (the source loop
breaks at the first difference). -/
def event_updated (original_event : EventRecord) (new_event : UpdateRequest) : Bool :=
  original_event.summary ≠ new_event.summary ||
  original_event.summary_html ≠ new_event.summary_html ||
  original_event.location ≠ new_event.location ||
  original_event.location_html ≠ new_event.location_html ||
  original_event.dtend ≠ new_event.dtend ||
  original_event.dtstart ≠ new_event.dtstart ||
  original_event.description ≠ new_event.description ||
  original_event.description_html ≠ new_event.description_html

/-- `update_event`: overwrite the eight compared fields with the incoming
values, set `dtstamp` and `last_modified` to the current instant, and
increment `sequence` by one. -/
def update_event (original_event : EventRecord) (new_event : UpdateRequest)
    (now : Int) : EventRecord :=
  { original_event with
    summary := new_event.summary
    summary_html := new_event.summary_html
    location := new_event.location
    location_html := new_event.location_html
    dtend := new_event.dtend
    dtstart := new_event.dtstart
    description := new_event.description
    description_html := new_event.description_html
    dtstamp := now
    last_modified := now
    sequence := original_event.sequence + 1 }

/-- `process_request_from` (update_event): write, notify and acknowledge
only when `event_updated` holds; the returned booleans are
(notification sent, message acknowledged) — the acknowledgment
(`delete_successfully_processed_sqs`) is inside the `if` in the source. -/
def process_request_from (stored : EventRecord) (new_event : UpdateRequest)
    (now : Int) : EventRecord × Bool × Bool :=
  if event_updated stored new_event then
    (update_event stored new_event now, true, true)
  else
    (stored, false, false)

end UpdateEvent

namespace CancelEvent2

/-- `event_is_not_cancelled`. -/
def event_is_not_cancelled (event : EventRecord) : Bool :=
  event.status ≠ "cancelled"

/-- `cancel_event`: set `method = cancel`, `status = cancelled`, refresh
`dtstamp`/`last_modified`, increment `sequence` by one. -/
def cancel_event (event : EventRecord) (now : Int) : EventRecord :=
  { event with
    method := "cancel"
    status := "cancelled"
    dtstamp := now
    last_modified := now
    sequence := event.sequence + 1 }

/-- `process_request_from` (cancel_event_2): cancel and notify only when
the event is not yet cancelled; the acknowledgment is outside the `if`, so
both branches acknowledge.  Booleans: (notification sent, acknowledged). -/
def process_request_from (event : EventRecord) (now : Int) :
    EventRecord × Bool × Bool :=
  if event_is_not_cancelled event then
    (cancel_event event now, true, true)
  else
    (event, false, true)

end CancelEvent2

/-- `cleanup_all` (identical in every Lambda module): raise when the batch
failure counter is nonzero, otherwise return "Complete". -/
def cleanup_all (failed : Nat) : Except String String :=
  if failed ≠ 0 then Except.error (toString failed ++ " tasks failed")
  else Except.ok "Complete"

/-- The failure counter accumulated by `lambda_handler`'s per-record
`try/except`: one count per record whose processing raised. -/
def countFailed (results : List (Except String Unit)) : Nat :=
  (results.filter (fun r => match r with | Except.error _ => true | Except.ok _ => false)).length

/-- `lambda_handler` (batch driver, identical in every Lambda module):
process each record, count the failures, and finish with `cleanup_all`. -/
def lambda_handler (results : List (Except String Unit)) : Except String String :=
  cleanup_all (countFailed results)

namespace CreateNewEventRecord

/-- An inbound new-event request (field values already parsed: the
`get_date_epoch` conversions of the source are applied, so the instants are
epoch integers).  `tenant` is optional (`event.get("tenant", "thirtyone")`). -/
structure CreateRequest where
  original_uid : String
  uid : String
  mailto : String
  organizer : String
  status : String
  method : String
  sequence : Int
  dtstart : Int
  dtend : Int
  dtstamp : Int
  created : Int
  last_modified : Int
  summary : String
  summary_html : String
  description : String
  description_html : String
  location : String
  location_html : String
  tenant : Option String
  deriving Repr, DecidableEq

/-- `stage_request_from`: the staged Event item — request fields plus
`invite_limit` from the environment, `invite_limit_notification = False`,
`original_organizer` copied from `organizer`, tenant defaulted. -/
def stage_request_from (req : CreateRequest) (inviteLimit : Int) : EventRecord :=
  { uid := req.uid
    organizer := req.organizer
    original_organizer := req.organizer
    mailto := req.mailto
    status := req.status
    method := req.method
    sequence := req.sequence
    dtstart := req.dtstart
    dtend := req.dtend
    dtstamp := req.dtstamp
    created := req.created
    last_modified := req.last_modified
    summary := req.summary
    summary_html := req.summary_html
    description := req.description
    description_html := req.description_html
    location := req.location
    location_html := req.location_html
    invite_limit := inviteLimit
    invite_limit_notification := false
    tenant := req.tenant.getD "thirtyone" }

/-- `get_original_event_record_from`: the `original_event#` lookup item. -/
def get_original_event_record_from (staged : EventRecord) : OriginalEventLookup :=
  { uid := staged.uid, mailto := staged.mailto }

/-- `get_statistics_record_for`: the per-event statistics seed — attendees
zero, empty `origin`/`prodid` maps, all four `rsvp` buckets zero. -/
def get_statistics_record_for : StatisticsRecord := seedStatisticsZero

/-- `create_organizer_statistics_record`: conditional put of the organizer
statistics seed (`events = 0` plus zeroed statistics); an already-existing
item is left untouched (the conditional failure is swallowed). -/
def create_organizer_statistics_record (st : Store) (organizer : String) : Store :=
  match assocGet st.organizerStatistics organizer with
  | some _ => st
  | none =>
      { st with
        organizerStatistics :=
          assocSet st.organizerStatistics organizer
            { events := 0, stats := some seedStatisticsZero } }

/-- `get_organizer_event_update_query`: `SET #events =
if_not_exists(#events, :zero) + :inc` — an upsert that increments the
counter, creating a bare item (`events = 1`, no statistics attributes) when
the organizer item is absent. -/
def get_organizer_event_update_query (m : List (String × OrganizerRecord))
    (organizer : String) : List (String × OrganizerRecord) :=
  match assocGet m organizer with
  | some og => assocSet m organizer { og with events := og.events + 1 }
  | none => assocSet m organizer { events := 1, stats := none }

/-- Result of one create call: `created` also sends the "new event created"
notification; `alreadyExists` is the cancelled transaction, logged as
"Event record already exists" and routed to the "event updated"
notification. -/
inductive CreateOutcome where
  | created
  | alreadyExists
  deriving Repr, DecidableEq

/-- `create_new_event_record`: the four-item transaction — conditional put
of the original-uid lookup, unconditional puts of the Event item and the
per-event statistics seed, and the organizer `events` counter update.  The
only condition is "absent" on the lookup item, so when the `original_uid`
is already known the whole transaction is cancelled and the call is routed
to the update notification. -/
def create_new_event_record (st : Store) (req : CreateRequest)
    (inviteLimit : Int) : Store × CreateOutcome :=
  if (assocGet st.originalEvents req.original_uid).isSome then
    (st, CreateOutcome.alreadyExists)
  else
    let staged := stage_request_from req inviteLimit
    ({ st with
        originalEvents :=
          assocSet st.originalEvents req.original_uid
            (get_original_event_record_from staged)
        events := assocSet st.events req.uid staged
        eventStatistics :=
          assocSet st.eventStatistics req.uid get_statistics_record_for
        organizerStatistics :=
          get_organizer_event_update_query st.organizerStatistics req.mailto },
      CreateOutcome.created)

/-- `process_request_from` (create_new_event_record): look up the organizer
statistics, seed the organizer statistics item when absent
(`events_available`), and run the create transaction when the organizer is
authorized (`organizer_can_send`: non-empty email, not suspended; the event
limiter is disabled and always allows).  `none` means the request was
skipped as unauthorized. -/
def process_request_from (st : Store) (req : CreateRequest) (inviteLimit : Int)
    (suspended : Bool) : Store × Option CreateOutcome :=
  if req.mailto ≠ "" && !suspended then
    let st1 :=
      if (assocGet st.organizerStatistics req.mailto).isSome then st
      else create_organizer_statistics_record st req.mailto
    let out := create_new_event_record st1 req inviteLimit
    (out.1, some out.2)
  else (st, none)

end CreateNewEventRecord

/-- A concrete stored event used to instantiate the theorems below. -/
def sampleEvent : EventRecord :=
  { uid := "e1"
    organizer := "a@x.com"
    original_organizer := "a@x.com"
    mailto := "a@x.com"
    status := "confirmed"
    method := "request"
    sequence := 0
    dtstart := 100
    dtend := 200
    dtstamp := 10
    created := 10
    last_modified := 10
    summary := "s"
    summary_html := "sh"
    description := "d"
    description_html := "dh"
    location := "l"
    location_html := "lh"
    invite_limit := 10
    invite_limit_notification := false
    tenant := "thirtyone" }

/-- An update request equal to `sampleEvent` on all eight compared fields. -/
def sampleUpdateSame : UpdateEvent.UpdateRequest :=
  { summary := "s"
    summary_html := "sh"
    location := "l"
    location_html := "lh"
    dtend := 200
    dtstart := 100
    description := "d"
    description_html := "dh" }

/-- An update request differing from `sampleEvent` in `summary` only. -/
def sampleUpdateDiff : UpdateEvent.UpdateRequest :=
  { sampleUpdateSame with summary := "new summary" }

/-- C4: calling update with incoming values equal to the stored values on
each of the eight compared fields performs no store write and no
notification, leaving `sequence`, `dtstamp` and `last_modified` unchanged
(the NoOp result: the stored record is returned untouched). -/
theorem noop_update_writes_nothing (e : EventRecord) (n : UpdateEvent.UpdateRequest)
    (now : Int)
    (h1 : e.summary = n.summary) (h2 : e.summary_html = n.summary_html)
    (h3 : e.location = n.location) (h4 : e.location_html = n.location_html)
    (h5 : e.dtend = n.dtend) (h6 : e.dtstart = n.dtstart)
    (h7 : e.description = n.description) (h8 : e.description_html = n.description_html) :
    UpdateEvent.event_updated e n = false ∧
    UpdateEvent.process_request_from e n now = (e, false, false) := by
  have hupd : UpdateEvent.event_updated e n = false := by
    simp [UpdateEvent.event_updated, h1, h2, h3, h4, h5, h6, h7, h8]
  exact ⟨hupd, by simp [UpdateEvent.process_request_from, hupd]⟩

/-- Witness for C4 at a concrete stored event and identical request. -/
theorem noop_update_writes_nothing_witness :
    sampleEvent.summary = sampleUpdateSame.summary ∧
    UpdateEvent.process_request_from sampleEvent sampleUpdateSame 55 =
      (sampleEvent, false, false) :=
  ⟨rfl,
   (noop_update_writes_nothing sampleEvent sampleUpdateSame 55
      rfl rfl rfl rfl rfl rfl rfl rfl).2⟩

/-- C9: whenever at least one of the eight compared fields differs, update
overwrites the compared fields with the incoming values, sets `dtstamp` and
`last_modified` to the current instant, and increments `sequence` by exactly
one; in every case the stored sequence never decreases. -/
theorem update_increments_sequence (e : EventRecord) (n : UpdateEvent.UpdateRequest)
    (now : Int) :
    e.sequence ≤ (UpdateEvent.process_request_from e n now).1.sequence ∧
    (UpdateEvent.event_updated e n = true →
      UpdateEvent.process_request_from e n now =
        (UpdateEvent.update_event e n now, true, true) ∧
      (UpdateEvent.update_event e n now).summary = n.summary ∧
      (UpdateEvent.update_event e n now).summary_html = n.summary_html ∧
      (UpdateEvent.update_event e n now).location = n.location ∧
      (UpdateEvent.update_event e n now).location_html = n.location_html ∧
      (UpdateEvent.update_event e n now).dtend = n.dtend ∧
      (UpdateEvent.update_event e n now).dtstart = n.dtstart ∧
      (UpdateEvent.update_event e n now).description = n.description ∧
      (UpdateEvent.update_event e n now).description_html = n.description_html ∧
      (UpdateEvent.update_event e n now).dtstamp = now ∧
      (UpdateEvent.update_event e n now).last_modified = now ∧
      (UpdateEvent.update_event e n now).sequence = e.sequence + 1 ∧
      e.sequence < (UpdateEvent.update_event e n now).sequence) := by
  constructor
  · by_cases h : UpdateEvent.event_updated e n
    · simp [UpdateEvent.process_request_from, h, UpdateEvent.update_event]
    · simp [UpdateEvent.process_request_from, h]
  · intro h
    refine ⟨by simp [UpdateEvent.process_request_from, h], ?_⟩
    simp [UpdateEvent.update_event]

/-- Witness for C9 at a concrete stored event and a request changing the
summary. -/
theorem update_increments_sequence_witness :
    UpdateEvent.event_updated sampleEvent sampleUpdateDiff = true ∧
    UpdateEvent.process_request_from sampleEvent sampleUpdateDiff 77 =
      (UpdateEvent.update_event sampleEvent sampleUpdateDiff 77, true, true) :=
  ⟨by decide,
   ((update_increments_sequence sampleEvent sampleUpdateDiff 77).2 (by decide)).1⟩

/-- C8: cancel is idempotent — the first cancel on a non-cancelled event
writes the cancelled record and notifies; a second cancel performs no write,
leaving `sequence`, `status`, `method`, `dtstamp`, `last_modified` exactly
as the first call left them, with no notification (the AlreadyCancelled
no-op), though it is still acknowledged. -/
theorem cancel_idempotent (e : EventRecord) (t1 t2 : Int)
    (h : e.status ≠ "cancelled") :
    CancelEvent2.process_request_from e t1 =
      (CancelEvent2.cancel_event e t1, true, true) ∧
    CancelEvent2.process_request_from (CancelEvent2.cancel_event e t1) t2 =
      (CancelEvent2.cancel_event e t1, false, true) ∧
    (CancelEvent2.cancel_event e t1).status = "cancelled" ∧
    (CancelEvent2.cancel_event e t1).method = "cancel" ∧
    (CancelEvent2.cancel_event e t1).sequence = e.sequence + 1 ∧
    (CancelEvent2.cancel_event e t1).dtstamp = t1 ∧
    (CancelEvent2.cancel_event e t1).last_modified = t1 := by
  refine ⟨?_, ?_, rfl, rfl, rfl, rfl, rfl⟩
  · simp [CancelEvent2.process_request_from, CancelEvent2.event_is_not_cancelled, h]
  · simp [CancelEvent2.process_request_from, CancelEvent2.event_is_not_cancelled,
      CancelEvent2.cancel_event]

/-- Witness for C8 at a concrete confirmed event. -/
theorem cancel_idempotent_witness :
    sampleEvent.status ≠ "cancelled" ∧
    CancelEvent2.process_request_from (CancelEvent2.cancel_event sampleEvent 20) 30 =
      (CancelEvent2.cancel_event sampleEvent 20, false, true) :=
  ⟨by decide, (cancel_idempotent sampleEvent 20 30 (by decide)).2.1⟩

/-- C3 counterexample: a NoOp update completes without raising, yet the
message is not acknowledged — `process_request_from` of the update module
returns acknowledged = false (third component) on a request identical to
the stored event, refuting "if processing the message completes without
raising an exception — including ... a NoOp update ... — the message is
acknowledged". -/
theorem noop_update_not_acknowledged :
    UpdateEvent.process_request_from sampleEvent sampleUpdateSame 0 =
      (sampleEvent, false, false) := by
  decide

/-- C3 as amended: the update handler acknowledges a message exactly when
the update was applied (the NoOp branch completes without acknowledging);
the cancel handler acknowledges in both branches (including
AlreadyCancelled); and the batch driver fails at the transport boundary
exactly when the per-batch failure counter is nonzero. -/
theorem batch_ack_and_failure_signal :
    (∀ (e : EventRecord) (n : UpdateEvent.UpdateRequest) (now : Int),
      (UpdateEvent.process_request_from e n now).2.2 = UpdateEvent.event_updated e n) ∧
    (∀ (e : EventRecord) (now : Int),
      (CancelEvent2.process_request_from e now).2.2 = true) ∧
    (∀ results : List (Except String Unit),
      lambda_handler results = Except.ok "Complete" ↔ countFailed results = 0) := by
  refine ⟨?_, ?_, ?_⟩
  · intro e n now
    by_cases h : UpdateEvent.event_updated e n <;>
      simp [UpdateEvent.process_request_from, h]
  · intro e now
    by_cases h : CancelEvent2.event_is_not_cancelled e <;>
      simp [CancelEvent2.process_request_from, h]
  · intro results
    by_cases h : countFailed results = 0 <;>
      simp [lambda_handler, cleanup_all, h]

/-- A concrete statistics record with one accepted attendee. -/
def statsOneAccepted : StatisticsRecord :=
  { attendees := 1
    origin := [("direct", 1)]
    prodid := [("p1", 1)]
    rsvp := [("accepted", 1), ("declined", 0), ("noaction", 0), ("tentative", 0)] }

/-- A concrete statistics record with one tentative attendee. -/
def statsOneTentative : StatisticsRecord :=
  { attendees := 1
    origin := [("direct", 1)]
    prodid := [("p1", 1)]
    rsvp := [("accepted", 0), ("declined", 0), ("noaction", 0), ("tentative", 1)] }

/-- A concrete attendee record whose current status is accepted. -/
def attendeeAccepted : AttendeeRecord :=
  { attendee := "b@y.com"
    mailto := "a@x.com"
    created := 5
    name := "customer"
    status := "accepted"
    origin := "direct"
    prodid := "p1"
    history := [("noaction", 5, "p1"), ("accepted", 6, "p1")] }

/-- A concrete attendee record whose current status is tentative. -/
def attendeeTentative : AttendeeRecord :=
  { attendeeAccepted with
    status := "tentative"
    history := [("noaction", 5, "p1"), ("tentative", 6, "p1")] }

/-- A concrete store holding `sampleEvent`, one accepted attendee and
consistent statistics in all three scopes. -/
def storeOneAccepted : Store :=
  { originalEvents := [("orig1", { uid := "e1", mailto := "a@x.com" })]
    events := [("e1", sampleEvent)]
    attendeeRecords := [(("e1", "b@y.com"), attendeeAccepted)]
    eventStatistics := [("e1", statsOneAccepted)]
    organizerStatistics := [("a@x.com", { events := 1, stats := some statsOneAccepted })]
    systemStatistics := statsOneAccepted }

/-- The same store with the attendee (and statistics) tentative instead. -/
def storeOneTentative : Store :=
  { storeOneAccepted with
    attendeeRecords := [(("e1", "b@y.com"), attendeeTentative)]
    eventStatistics := [("e1", statsOneTentative)]
    organizerStatistics := [("a@x.com", { events := 1, stats := some statsOneTentative })]
    systemStatistics := statsOneTentative }

/-- A concrete RSVP reply accepting the invite for `sampleEvent`. -/
def replyAccepted : UpdateEventAttendeeRecord.EventReply :=
  { uid := "e1"
    attendee := "b@y.com"
    partstat := "accepted"
    prodid := "p2"
    name := none }

/-- C7: when an AttendeeRecord exists and its current status equals the
incoming partstat, `record_rsvp` is the Duplicate no-op: the store is
returned entirely unchanged (record status, history, and all statistics
counters in all three scopes included). -/
theorem duplicate_rsvp_no_write (st : Store)
    (reply : UpdateEventAttendeeRecord.EventReply) (now : Int)
    (rec : AttendeeRecord)
    (h1 : UpdateEventAttendeeRecord.get_current_attendee_record_for st reply = some rec)
    (h2 : rec.status = reply.partstat) :
    UpdateEventAttendeeRecord.update_event_attendee_record_with st reply now =
      some (st, UpdateEventAttendeeRecord.RsvpOutcome.duplicate) := by
  simp [UpdateEventAttendeeRecord.update_event_attendee_record_with, h1, h2]

/-- Witness for C7: a second accepted reply against an accepted record. -/
theorem duplicate_rsvp_no_write_witness :
    UpdateEventAttendeeRecord.get_current_attendee_record_for storeOneAccepted
      replyAccepted = some attendeeAccepted ∧
    UpdateEventAttendeeRecord.update_event_attendee_record_with storeOneAccepted
      replyAccepted 9 =
      some (storeOneAccepted, UpdateEventAttendeeRecord.RsvpOutcome.duplicate) :=
  ⟨by decide, duplicate_rsvp_no_write storeOneAccepted replyAccepted 9
      attendeeAccepted (by decide) (by decide)⟩

/-- Destructuring a successful status-changing RSVP transaction: every read
it depends on succeeded, and the resulting store is the four-item write. -/
theorem submit_updated_effect (st : Store)
    (reply : UpdateEventAttendeeRecord.EventReply) (previous_status : String)
    (now : Int) (st2 : Store)
    (h : UpdateEventAttendeeRecord.submit_updated_event_attend_record_for
        st reply previous_status now = some st2) :
    ∃ organizer rec es es2 og ogStats ogStats2 sys2,
      UpdateEventAttendeeRecord.get_organizer_for st reply.uid = some organizer ∧
      assocGet st.attendeeRecords (reply.uid, reply.attendee) = some rec ∧
      assocGet st.eventStatistics reply.uid = some es ∧
      UpdateEventAttendeeRecord.get_statistics_record_update_for
        reply.partstat previous_status es = some es2 ∧
      assocGet st.organizerStatistics organizer = some og ∧
      og.stats = some ogStats ∧
      UpdateEventAttendeeRecord.get_statistics_record_update_for
        reply.partstat previous_status ogStats = some ogStats2 ∧
      UpdateEventAttendeeRecord.get_statistics_record_update_for
        reply.partstat previous_status st.systemStatistics = some sys2 ∧
      st2 = { st with
        attendeeRecords :=
          assocSet st.attendeeRecords (reply.uid, reply.attendee)
            (UpdateEventAttendeeRecord.get_attendee_update_record_for rec reply now)
        eventStatistics := assocSet st.eventStatistics reply.uid es2
        organizerStatistics :=
          assocSet st.organizerStatistics organizer { og with stats := some ogStats2 }
        systemStatistics := sys2 } := by
  simp only [UpdateEventAttendeeRecord.submit_updated_event_attend_record_for,
    Option.bind_eq_some, Option.map_eq_some'] at h
  obtain ⟨organizer, horg, rec, hrec, es, hes, es2, hes2, og, hog, ogStats, hogs,
    ogStats2, hogs2, sys2, hsys2, hst2⟩ := h
  exact ⟨organizer, rec, es, es2, og, ogStats, ogStats2, sys2, horg, hrec, hes,
    hes2, hog, hogs, hogs2, hsys2, hst2.symm⟩

/-- Effect of one scope's combined RSVP-transition delta: `rsvp[partstat]`
up by one, `rsvp[previous]` down by one, everything else untouched. -/
theorem stats_transition_effect (p q : String) (s s2 : StatisticsRecord)
    (hpq : p ≠ q)
    (h : UpdateEventAttendeeRecord.get_statistics_record_update_for p q s = some s2) :
    s2.attendees = s.attendees ∧ s2.origin = s.origin ∧ s2.prodid = s.prodid ∧
    assocGet s2.rsvp p = (assocGet s.rsvp p).map (fun v => v + 1) ∧
    assocGet s2.rsvp q = (assocGet s.rsvp q).map (fun v => v - 1) ∧
    (∀ k, k ≠ p → k ≠ q → assocGet s2.rsvp k = assocGet s.rsvp k) := by
  simp only [UpdateEventAttendeeRecord.get_statistics_record_update_for,
    Option.bind_eq_some, Option.map_eq_some'] at h
  obtain ⟨r1, h1, r2, h2, hs2⟩ := h
  subst hs2
  refine ⟨rfl, rfl, rfl, ?_, ?_, ?_⟩
  · rw [assocGet_addExisting_other r1 r2 q p (-1) hpq h2,
      assocGet_addExisting_same s.rsvp r1 p 1 h1]
  · rw [assocGet_addExisting_same r1 r2 q (-1) h2,
      assocGet_addExisting_other s.rsvp r1 p q 1 (Ne.symm hpq) h1]
    cases assocGet s.rsvp q <;> simp [sub_eq_add_neg]
  · intro k hkp hkq
    rw [assocGet_addExisting_other r1 r2 q k (-1) hkq h2,
      assocGet_addExisting_other s.rsvp r1 p k 1 hkp h1]

/-- C10: a status-changing RSVP against an existing AttendeeRecord
overwrites the record's `created` with the reply's processing timestamp and
its `prodid` with the replying client's prodid, besides setting `status`
and appending the history entry — the original creation instant is lost. -/
theorem rsvp_update_overwrites_created_and_prodid (st : Store)
    (reply : UpdateEventAttendeeRecord.EventReply) (now : Int)
    (rec : AttendeeRecord) (st2 : Store)
    (o : UpdateEventAttendeeRecord.RsvpOutcome)
    (h1 : UpdateEventAttendeeRecord.get_current_attendee_record_for st reply = some rec)
    (h2 : rec.status ≠ reply.partstat)
    (h4 : UpdateEventAttendeeRecord.update_event_attendee_record_with st reply now =
      some (st2, o)) :
    o = UpdateEventAttendeeRecord.RsvpOutcome.updated ∧
    assocGet st2.attendeeRecords (reply.uid, reply.attendee) =
      some (UpdateEventAttendeeRecord.get_attendee_update_record_for rec reply now) ∧
    (UpdateEventAttendeeRecord.get_attendee_update_record_for rec reply now).created
      = now ∧
    (UpdateEventAttendeeRecord.get_attendee_update_record_for rec reply now).prodid
      = reply.prodid ∧
    (UpdateEventAttendeeRecord.get_attendee_update_record_for rec reply now).status
      = reply.partstat ∧
    (UpdateEventAttendeeRecord.get_attendee_update_record_for rec reply now).history
      = rec.history ++ [(reply.partstat, now, reply.prodid)] := by
  simp only [UpdateEventAttendeeRecord.update_event_attendee_record_with, h1,
    if_pos h2, Option.map_eq_some'] at h4
  obtain ⟨st1, hsub, heq⟩ := h4
  have hst2 : st2 = st1 := (congrArg Prod.fst heq).symm
  have ho : o = UpdateEventAttendeeRecord.RsvpOutcome.updated :=
    (congrArg Prod.snd heq).symm
  obtain ⟨organizer, rec2, es, es2, og, ogStats, ogStats2, sys2, _, hrec2, _, _,
    _, _, _, _, hst⟩ := submit_updated_effect st reply rec.status now st1 hsub
  have hrr : rec2 = rec := by
    have h1a : assocGet st.attendeeRecords (reply.uid, reply.attendee) = some rec := h1
    rw [h1a] at hrec2
    exact (Option.some.inj hrec2).symm
  subst hrr
  refine ⟨ho, ?_, rfl, rfl, rfl, rfl⟩
  rw [hst2, hst]
  exact assocGet_assocSet_same _ _ _

/-- The attendee record written when `replyAccepted` hits the tentative
attendee at instant 9. -/
def updatedAttendeeAccepted : AttendeeRecord :=
  { attendee := "b@y.com"
    mailto := "a@x.com"
    created := 9
    name := "customer"
    status := "accepted"
    origin := "direct"
    prodid := "p2"
    history := [("noaction", 5, "p1"), ("tentative", 6, "p1"), ("accepted", 9, "p2")] }

/-- The store produced from `storeOneTentative` by `replyAccepted` at 9. -/
def storeAfterAccept : Store :=
  { originalEvents := [("orig1", { uid := "e1", mailto := "a@x.com" })]
    events := [("e1", sampleEvent)]
    attendeeRecords := [(("e1", "b@y.com"), updatedAttendeeAccepted)]
    eventStatistics := [("e1", statsOneAccepted)]
    organizerStatistics := [("a@x.com", { events := 1, stats := some statsOneAccepted })]
    systemStatistics := statsOneAccepted }

/-- Witness for C10 at the concrete tentative store. -/
theorem rsvp_update_overwrites_created_witness :
    attendeeTentative.status ≠ replyAccepted.partstat ∧
    assocGet storeAfterAccept.attendeeRecords ("e1", "b@y.com") =
      some (UpdateEventAttendeeRecord.get_attendee_update_record_for
        attendeeTentative replyAccepted 9) :=
  ⟨by decide,
   (rsvp_update_overwrites_created_and_prodid storeOneTentative replyAccepted 9
      attendeeTentative storeAfterAccept
      UpdateEventAttendeeRecord.RsvpOutcome.updated
      (by decide) (by decide) (by decide)).2.1⟩

/-- One scope's statistics moved exactly one unit from the `tentative` to
the `accepted` rsvp bucket, with `attendees` and the other buckets
untouched. -/
def movesTentativeToAccepted (b a : StatisticsRecord) : Prop :=
  a.attendees = b.attendees ∧
  assocGet a.rsvp "accepted" = (assocGet b.rsvp "accepted").map (fun v => v + 1) ∧
  assocGet a.rsvp "tentative" = (assocGet b.rsvp "tentative").map (fun v => v - 1) ∧
  (∀ k, k ≠ "accepted" → k ≠ "tentative" → assocGet a.rsvp k = assocGet b.rsvp k)

/-- C6: against an AttendeeRecord whose status is tentative, a
`record_rsvp` with new status accepted applies, in each of the three
statistics scopes, the single combined delta that decreases
`rsvp[tentative]` by 1 and increases `rsvp[accepted]` by 1, leaves
`attendees` unchanged in every scope, and returns Updated. -/
theorem rsvp_tentative_to_accepted_conserves (st : Store)
    (reply : UpdateEventAttendeeRecord.EventReply) (now : Int)
    (rec : AttendeeRecord) (st2 : Store)
    (o : UpdateEventAttendeeRecord.RsvpOutcome)
    (h1 : UpdateEventAttendeeRecord.get_current_attendee_record_for st reply = some rec)
    (h2 : rec.status = "tentative")
    (h3 : reply.partstat = "accepted")
    (h4 : UpdateEventAttendeeRecord.update_event_attendee_record_with st reply now =
      some (st2, o)) :
    o = UpdateEventAttendeeRecord.RsvpOutcome.updated ∧
    (∃ es es2, assocGet st.eventStatistics reply.uid = some es ∧
      assocGet st2.eventStatistics reply.uid = some es2 ∧
      movesTentativeToAccepted es es2) ∧
    (∃ organizer og og2 ogs ogs2,
      UpdateEventAttendeeRecord.get_organizer_for st reply.uid = some organizer ∧
      assocGet st.organizerStatistics organizer = some og ∧
      assocGet st2.organizerStatistics organizer = some og2 ∧
      og.stats = some ogs ∧ og2.stats = some ogs2 ∧ og2.events = og.events ∧
      movesTentativeToAccepted ogs ogs2) ∧
    movesTentativeToAccepted st.systemStatistics st2.systemStatistics := by
  have hne : rec.status ≠ reply.partstat := by rw [h2, h3]; decide
  simp only [UpdateEventAttendeeRecord.update_event_attendee_record_with, h1,
    if_pos hne, Option.map_eq_some'] at h4
  obtain ⟨st1, hsub, heq⟩ := h4
  have hst2 : st2 = st1 := (congrArg Prod.fst heq).symm
  have ho : o = UpdateEventAttendeeRecord.RsvpOutcome.updated :=
    (congrArg Prod.snd heq).symm
  obtain ⟨organizer, rec2, es, es2, og, ogStats, ogStats2, sys2, horg, hrec2, hes,
    hes2, hog, hogs, hogs2, hsys2, hst⟩ :=
    submit_updated_effect st reply rec.status now st1 hsub
  rw [h2, h3] at hes2 hogs2 hsys2
  have hacc : ("accepted" : String) ≠ "tentative" := by decide
  refine ⟨ho, ⟨es, es2, hes, ?_, ?_⟩,
    ⟨organizer, og, { og with stats := some ogStats2 }, ogStats, ogStats2,
      horg, hog, ?_, hogs, rfl, rfl, ?_⟩, ?_⟩
  · rw [hst2, hst]
    exact assocGet_assocSet_same _ _ _
  · obtain ⟨ha, _, _, hp, hq, hf⟩ := stats_transition_effect _ _ _ _ hacc hes2
    exact ⟨ha, hp, hq, hf⟩
  · rw [hst2, hst]
    exact assocGet_assocSet_same _ _ _
  · obtain ⟨ha, _, _, hp, hq, hf⟩ := stats_transition_effect _ _ _ _ hacc hogs2
    exact ⟨ha, hp, hq, hf⟩
  · rw [hst2, hst]
    obtain ⟨ha, _, _, hp, hq, hf⟩ := stats_transition_effect _ _ _ _ hacc hsys2
    exact ⟨ha, hp, hq, hf⟩

/-- Witness for C6: the system scope of the concrete tentative store moves
one unit from tentative to accepted. -/
theorem rsvp_tentative_to_accepted_witness :
    attendeeTentative.status = "tentative" ∧
    movesTentativeToAccepted statsOneTentative statsOneAccepted :=
  ⟨rfl,
   (rsvp_tentative_to_accepted_conserves storeOneTentative replyAccepted 9
      attendeeTentative storeAfterAccept
      UpdateEventAttendeeRecord.RsvpOutcome.updated
      (by decide) rfl rfl (by decide)).2.2.2⟩

/-- C1: the `sum(rsvp.values()) == attendees` invariant is preserved by
every statistics delta of the engine, in any scope: the per-event seed
starts with `attendees = 0` and all four rsvp buckets at 0; an invite
creation and a shared-origin RSVP creation each raise `attendees` and one
rsvp bucket by 1; an RSVP status change moves one unit between two rsvp
buckets leaving `attendees` unchanged. -/
theorem statistics_balance_invariant :
    (seedStatisticsZero.attendees = 0 ∧
     sumValues seedStatisticsZero.rsvp = seedStatisticsZero.attendees ∧
     assocGet seedStatisticsZero.rsvp "accepted" = some 0 ∧
     assocGet seedStatisticsZero.rsvp "declined" = some 0 ∧
     assocGet seedStatisticsZero.rsvp "noaction" = some 0 ∧
     assocGet seedStatisticsZero.rsvp "tentative" = some 0) ∧
    (∀ (inv : SendEventInvite.InviteRequest) (s s2 : StatisticsRecord),
      SendEventInvite.get_statistics_record_update_for inv s = some s2 →
      sumValues s.rsvp = s.attendees →
      s2.attendees = s.attendees + 1 ∧ sumValues s2.rsvp = s2.attendees) ∧
    (∀ (reply : UpdateEventAttendeeRecord.EventReply) (s s2 : StatisticsRecord),
      UpdateEventAttendeeRecord.get_statistics_record_update_shared_for reply s
        = some s2 →
      sumValues s.rsvp = s.attendees →
      s2.attendees = s.attendees + 1 ∧ sumValues s2.rsvp = s2.attendees) ∧
    (∀ (p q : String) (s s2 : StatisticsRecord),
      UpdateEventAttendeeRecord.get_statistics_record_update_for p q s = some s2 →
      sumValues s.rsvp = s.attendees →
      s2.attendees = s.attendees ∧ sumValues s2.rsvp = s2.attendees) := by
  refine ⟨by decide, ?_, ?_, ?_⟩
  · intro inv s s2 h hbal
    simp only [SendEventInvite.get_statistics_record_update_for,
      Option.map_eq_some'] at h
    obtain ⟨r1, h1, hs2⟩ := h
    subst hs2
    have hsum : sumValues r1 = s.attendees + 1 := by
      rw [sumValues_addExisting s.rsvp r1 inv.partstat 1 h1, hbal]
    exact ⟨rfl, hsum⟩
  · intro reply s s2 h hbal
    simp only [UpdateEventAttendeeRecord.get_statistics_record_update_shared_for,
      Option.map_eq_some'] at h
    obtain ⟨r1, h1, hs2⟩ := h
    subst hs2
    have hsum : sumValues r1 = s.attendees + 1 := by
      rw [sumValues_addExisting s.rsvp r1 reply.partstat 1 h1, hbal]
    exact ⟨rfl, hsum⟩
  · intro p q s s2 h hbal
    simp only [UpdateEventAttendeeRecord.get_statistics_record_update_for,
      Option.bind_eq_some, Option.map_eq_some'] at h
    obtain ⟨r1, h1, r2, h2, hs2⟩ := h
    subst hs2
    refine ⟨rfl, ?_⟩
    have e1 := sumValues_addExisting s.rsvp r1 p 1 h1
    have e2 := sumValues_addExisting r1 r2 q (-1) h2
    simp only [e2, e1]
    omega

/-- Witness for C1: the transition delta on the concrete one-tentative
statistics record keeps the sum in balance. -/
theorem statistics_balance_invariant_witness :
    UpdateEventAttendeeRecord.get_statistics_record_update_for "accepted"
      "tentative" statsOneTentative = some statsOneAccepted ∧
    sumValues statsOneAccepted.rsvp = statsOneAccepted.attendees :=
  ⟨by decide,
   (statistics_balance_invariant.2.2.2 "accepted" "tentative" statsOneTentative
      statsOneAccepted (by decide) (by decide)).2⟩

/-- A fresh store: one event with seeded statistics everywhere and no
attendee records yet. -/
def storeFresh : Store :=
  { originalEvents := [("orig1", { uid := "e1", mailto := "a@x.com" })]
    events := [("e1", sampleEvent)]
    attendeeRecords := []
    eventStatistics := [("e1", seedStatisticsZero)]
    organizerStatistics := [("a@x.com", { events := 1, stats := some seedStatisticsZero })]
    systemStatistics := seedStatisticsZero }

/-- A concrete bulk invite request whose meta prodid differs from the
hard-coded attendee-record prodid. -/
def inviteBulk : SendEventInvite.InviteRequest :=
  { uid := "e1"
    email := "b@y.com"
    partstat := "noaction"
    origin := "bulk"
    prodid := "31events//ses"
    name := none }

/-- C5 counterexample: on a fresh store, `record_invite` inserts the
attendee record with a history entry whose prodid is the hard-coded
calendarsnack constant `prodid31events`, not `meta.prodid`
(`31events//ses` here) — refuting "a single history entry
(noaction, now, meta.prodid)". -/
theorem invite_history_prodid_counterexample :
    ((SendEventInvite.process_request_from storeFresh inviteBulk "a@x.com" 7).map
      (fun r => (assocGet r.1.attendeeRecords ("e1", "b@y.com")).map
        (fun rec => rec.history))) =
      some (some [("noaction", 7, SendEventInvite.prodid31events)]) ∧
    SendEventInvite.prodid31events ≠ inviteBulk.prodid :=
  ⟨by decide, by decide⟩

/-- One scope's statistics delta for a recorded invite: `attendees` up one,
`origin[meta.origin]` and `prodid[meta.prodid]` incremented (initializing
absent sub-counters to zero), `rsvp[partstat]` up one, other rsvp buckets
untouched. -/
def inviteScopeDelta (inv : SendEventInvite.InviteRequest)
    (b a : StatisticsRecord) : Prop :=
  a.attendees = b.attendees + 1 ∧
  a.origin = incInit b.origin inv.origin ∧
  a.prodid = incInit b.prodid inv.prodid ∧
  assocGet a.rsvp inv.partstat = (assocGet b.rsvp inv.partstat).map (fun v => v + 1) ∧
  (∀ k, k ≠ inv.partstat → assocGet a.rsvp k = assocGet b.rsvp k)

/-- Effect of one scope's invite statistics update. -/
theorem invite_stats_effect (inv : SendEventInvite.InviteRequest)
    (s s2 : StatisticsRecord)
    (h : SendEventInvite.get_statistics_record_update_for inv s = some s2) :
    inviteScopeDelta inv s s2 := by
  simp only [SendEventInvite.get_statistics_record_update_for,
    Option.map_eq_some'] at h
  obtain ⟨r1, h1, hs2⟩ := h
  subst hs2
  refine ⟨rfl, rfl, rfl, assocGet_addExisting_same s.rsvp r1 inv.partstat 1 h1, ?_⟩
  intro k hk
  exact assocGet_addExisting_other s.rsvp r1 inv.partstat k 1 hk h1

/-- C5 as amended: with no existing AttendeeRecord, `record_invite` runs
one atomic transaction inserting the AttendeeRecord with status noaction
and a single history entry `(noaction, now, prodid31events)` (the
hard-coded sender prodid constant, not `meta.prodid`), decrementing the event's
`invite_limit` by exactly 1, and applying the invite statistics delta
(`attendees`, `origin[meta.origin]`, `prodid[meta.prodid]`,
`rsvp[noaction]` each +1) in all three scopes. -/
theorem record_invite_transaction (st : Store)
    (inv : SendEventInvite.InviteRequest) (eventMailto : String) (now : Int)
    (st2 : Store) (o : SendEventInvite.InviteOutcome) (sent : Bool)
    (hpart : inv.partstat = "noaction")
    (habsent : assocGet st.attendeeRecords (inv.uid, inv.email) = none)
    (h4 : SendEventInvite.process_request_from st inv eventMailto now =
      some (st2, o, sent)) :
    o = SendEventInvite.InviteOutcome.recorded ∧ sent = true ∧
    assocGet st2.attendeeRecords (inv.uid, inv.email) =
      some (SendEventInvite.get_attendee_record_for inv eventMailto now) ∧
    (SendEventInvite.get_attendee_record_for inv eventMailto now).status
      = "noaction" ∧
    (SendEventInvite.get_attendee_record_for inv eventMailto now).history
      = [("noaction", now, SendEventInvite.prodid31events)] ∧
    (∃ ev, assocGet st.events inv.uid = some ev ∧
      assocGet st2.events inv.uid = some { ev with invite_limit := ev.invite_limit - 1 }) ∧
    (∃ es es2, assocGet st.eventStatistics inv.uid = some es ∧
      assocGet st2.eventStatistics inv.uid = some es2 ∧ inviteScopeDelta inv es es2) ∧
    (∃ og og2 ogs ogs2, assocGet st.organizerStatistics eventMailto = some og ∧
      assocGet st2.organizerStatistics eventMailto = some og2 ∧
      og.stats = some ogs ∧ og2.stats = some ogs2 ∧ og2.events = og.events ∧
      inviteScopeDelta inv ogs ogs2) ∧
    inviteScopeDelta inv st.systemStatistics st2.systemStatistics := by
  simp only [SendEventInvite.process_request_from,
    SendEventInvite.attendee_has_not_been_sent, habsent, Option.isNone_none,
    if_pos, Option.map_eq_some'] at h4
  obtain ⟨st1, hcr, heq⟩ := h4
  have hst2 : st2 = st1 := (congrArg Prod.fst heq).symm
  have ho : o = SendEventInvite.InviteOutcome.recorded :=
    (congrArg (fun r => r.2.1) heq).symm
  have hsent : sent = true := (congrArg (fun r => r.2.2) heq).symm
  have hnotsome : (assocGet st.attendeeRecords (inv.uid, inv.email)).isSome = false := by
    rw [habsent]; rfl
  simp only [SendEventInvite.create_record_of_attendee, hnotsome,
    Bool.false_eq_true, if_false, Option.bind_eq_some, Option.map_eq_some'] at hcr
  obtain ⟨ev, hev, es, hes, es2, hes2, og, hog, ogs, hogs, ogs2, hogs2, sys2,
    hsys2, hst⟩ := hcr
  refine ⟨ho, hsent, ?_,
    by simp [SendEventInvite.get_attendee_record_for, hpart],
    by simp [SendEventInvite.get_attendee_record_for, hpart],
    ⟨ev, hev, ?_⟩, ⟨es, es2, hes, ?_, invite_stats_effect inv es es2 hes2⟩,
    ⟨og, { og with stats := some ogs2 }, ogs, ogs2, hog, ?_, hogs, rfl, rfl,
      invite_stats_effect inv ogs ogs2 hogs2⟩, ?_⟩
  · rw [hst2, ← hst]
    exact assocGet_assocSet_same _ _ _
  · rw [hst2, ← hst]
    exact assocGet_assocSet_same _ _ _
  · rw [hst2, ← hst]
    exact assocGet_assocSet_same _ _ _
  · rw [hst2, ← hst]
    exact assocGet_assocSet_same _ _ _
  · rw [hst2, ← hst]
    exact invite_stats_effect inv st.systemStatistics sys2 hsys2

/-- The statistics of any scope of `storeFresh` after recording
`inviteBulk`. -/
def statsAfterInviteBulk : StatisticsRecord :=
  { attendees := 1
    origin := [("bulk", 1)]
    prodid := [("31events//ses", 1)]
    rsvp := [("accepted", 0), ("declined", 0), ("noaction", 1), ("tentative", 0)] }

/-- The store produced from `storeFresh` by recording `inviteBulk` at 7. -/
def storeAfterInvite : Store :=
  { originalEvents := [("orig1", { uid := "e1", mailto := "a@x.com" })]
    events := [("e1", { sampleEvent with invite_limit := 9 })]
    attendeeRecords :=
      [(("e1", "b@y.com"),
        SendEventInvite.get_attendee_record_for inviteBulk "a@x.com" 7)]
    eventStatistics := [("e1", statsAfterInviteBulk)]
    organizerStatistics := [("a@x.com", { events := 1, stats := some statsAfterInviteBulk })]
    systemStatistics := statsAfterInviteBulk }

/-- Witness for C5 on the fresh concrete store. -/
theorem record_invite_transaction_witness :
    inviteBulk.partstat = "noaction" ∧
    inviteScopeDelta inviteBulk seedStatisticsZero statsAfterInviteBulk :=
  ⟨rfl,
   (record_invite_transaction storeFresh inviteBulk "a@x.com" 7 storeAfterInvite
      SendEventInvite.InviteOutcome.recorded true rfl (by decide)
      (by decide)).2.2.2.2.2.2.2.2⟩

theorem countKey_assocSet_of_absent {κ α : Type} [DecidableEq κ]
    (m : List (κ × α)) (key : κ) (v : α)
    (hv : assocGet m key = none) :
    countKey (assocSet m key v) key = 1 := by
  induction m with
  | nil => simp [assocSet, countKey]
  | cons p rest ih =>
      obtain ⟨k, w⟩ := p
      by_cases h : k = key
      · simp [assocGet, h] at hv
      · simp [assocGet, h] at hv
        simp [assocSet, countKey, h, List.filter] at ih ⊢
        exact ih hv


/-- C2: on a store where the `original_uid` is unknown (and the event uid
fresh), `create` returns Created and writes exactly one Event record,
exactly one OriginalEventLookup record, exactly one per-event statistics
seed, and increments the organizer `events` counter exactly once; a second
`create` with the same `original_uid` is cancelled wholesale by the
"absent" condition on the lookup item — the store is completely unchanged
and the call reports AlreadyExists (routed to the update notification),
not an error. -/
theorem create_idempotent (st : Store) (req : CreateNewEventRecord.CreateRequest)
    (L : Int) (st1 : Store) (r1 : Option CreateNewEventRecord.CreateOutcome)
    (h0 : assocGet st.originalEvents req.original_uid = none)
    (hm : req.mailto ≠ "")
    (h1 : assocGet st.events req.uid = none)
    (h2 : assocGet st.eventStatistics req.uid = none)
    (hrun : CreateNewEventRecord.process_request_from st req L false = (st1, r1)) :
    r1 = some CreateNewEventRecord.CreateOutcome.created ∧
    countKey st1.originalEvents req.original_uid = 1 ∧
    countKey st1.events req.uid = 1 ∧
    countKey st1.eventStatistics req.uid = 1 ∧
    assocGet st1.events req.uid = some (CreateNewEventRecord.stage_request_from req L) ∧
    assocGet st1.eventStatistics req.uid =
      some CreateNewEventRecord.get_statistics_record_for ∧
    (∃ og1, assocGet st1.organizerStatistics req.mailto = some og1 ∧
      og1.events = (match assocGet st.organizerStatistics req.mailto with
        | some og => og.events + 1
        | none => 1)) ∧
    CreateNewEventRecord.process_request_from st1 req L false =
      (st1, some CreateNewEventRecord.CreateOutcome.alreadyExists) := by
  cases hog : assocGet st.organizerStatistics req.mailto with
  | some og =>
      simp [CreateNewEventRecord.process_request_from, hm, hog,
        CreateNewEventRecord.create_new_event_record, h0,
        CreateNewEventRecord.get_organizer_event_update_query] at hrun
      obtain ⟨hst1, hr1⟩ := hrun
      subst hst1
      refine ⟨hr1.symm, countKey_assocSet_of_absent _ _ _ h0,
        countKey_assocSet_of_absent _ _ _ h1,
        countKey_assocSet_of_absent _ _ _ h2,
        assocGet_assocSet_same _ _ _, assocGet_assocSet_same _ _ _,
        ⟨{ og with events := og.events + 1 }, assocGet_assocSet_same _ _ _, rfl⟩, ?_⟩
      simp [CreateNewEventRecord.process_request_from, hm,
        CreateNewEventRecord.create_new_event_record, assocGet_assocSet_same]
  | none =>
      simp [CreateNewEventRecord.process_request_from, hm, hog,
        CreateNewEventRecord.create_organizer_statistics_record,
        CreateNewEventRecord.create_new_event_record, h0,
        CreateNewEventRecord.get_organizer_event_update_query,
        assocGet_assocSet_same] at hrun
      obtain ⟨hst1, hr1⟩ := hrun
      subst hst1
      refine ⟨hr1.symm, countKey_assocSet_of_absent _ _ _ h0,
        countKey_assocSet_of_absent _ _ _ h1,
        countKey_assocSet_of_absent _ _ _ h2,
        assocGet_assocSet_same _ _ _, assocGet_assocSet_same _ _ _,
        ⟨{ events := 0 + 1, stats := some seedStatisticsZero },
          assocGet_assocSet_same _ _ _, by norm_num⟩, ?_⟩
      simp [CreateNewEventRecord.process_request_from, hm,
        CreateNewEventRecord.create_new_event_record, assocGet_assocSet_same]

/-- A completely empty store (the system statistics singleton only). -/
def storeEmpty : Store :=
  { originalEvents := []
    events := []
    attendeeRecords := []
    eventStatistics := []
    organizerStatistics := []
    systemStatistics := seedStatisticsZero }

/-- A concrete create request whose staged event is `sampleEvent` (with
invite limit 10). -/
def createReq : CreateNewEventRecord.CreateRequest :=
  { original_uid := "orig1"
    uid := "e1"
    mailto := "a@x.com"
    organizer := "a@x.com"
    status := "confirmed"
    method := "request"
    sequence := 0
    dtstart := 100
    dtend := 200
    dtstamp := 10
    created := 10
    last_modified := 10
    summary := "s"
    summary_html := "sh"
    description := "d"
    description_html := "dh"
    location := "l"
    location_html := "lh"
    tenant := none }

/-- Witness for C2: creating on the empty store yields `storeFresh`, and
the second create with the same original uid leaves it unchanged. -/
theorem create_idempotent_witness :
    assocGet storeEmpty.originalEvents "orig1" = none ∧
    CreateNewEventRecord.process_request_from storeFresh createReq 10 false =
      (storeFresh, some CreateNewEventRecord.CreateOutcome.alreadyExists) :=
  ⟨rfl,
   (create_idempotent storeEmpty createReq 10 storeFresh
      (some CreateNewEventRecord.CreateOutcome.created)
      (by decide) (by decide) (by decide) (by decide)
      (by decide)).2.2.2.2.2.2.2⟩
